import Mathlib

/-!
Shallow embedding of the multi-tenant Slack bot lifecycle manager from
`src/Slack_bot_dynamic/bot_factory.py` and `src/Slack_bot_dynamic/bot_storage.py`.

Modelling conventions:
* Python dicts become association lists with Python's insertion semantics
  (update in place on an existing key, append otherwise).
* Optional string values keep Python truthiness: `None` and `""` are falsy.
* External effects are explicit parameters: the outcome of a file write
  (`writeOk`), of `handler.close()` (`closeOk`), of bot startup (`ok`), of the
  HTTP request to the agent endpoint (an `Except`), and the generated uuid id.
* Threaded code is modelled sequentially: the worker thread spawned by
  `BotInstance.start` is taken to have run its initialisation (creating the
  handler and setting `running = True`) by the time the call is observed.
* Exceptions raised by a method are `Except.error ()`; the method also returns
  its post-state, since mutations made before a `raise` persist in Python.
-/

/-- Python truthiness of an optional string value: `None` and `""` are falsy. -/
def pyTruthy : Option String → Bool
  | none => false
  | some s => !(s == "")

/-- Python `a or b` on optional string values: `a` when truthy, else `b`. -/
def pyOr (a b : Option String) : Option String :=
  if pyTruthy a then a else b

/-- Python `d.get(k)` on an association-list dict. -/
def dictLookup {α : Type} (k : String) : List (String × α) → Option α
  | [] => none
  | (k', v) :: rest => if k' = k then some v else dictLookup k rest

/-- Python `k in d`. -/
def dictContains {α : Type} (k : String) (d : List (String × α)) : Bool :=
  (dictLookup k d).isSome

/-- Python `d[k] = v`: replace in place when the key exists, else append. -/
def dictInsert {α : Type} (k : String) (v : α) : List (String × α) → List (String × α)
  | [] => [(k, v)]
  | (k', v') :: rest => if k' = k then (k, v) :: rest else (k', v') :: dictInsert k v rest

/-- Python `del d[k]` (keys are unique, so removing the first match suffices). -/
def dictErase {α : Type} (k : String) : List (String × α) → List (String × α)
  | [] => []
  | (k', v') :: rest => if k' = k then rest else (k', v') :: dictErase k rest

/-- One persisted bot configuration record, the value written by
`BotStorage.save_bot`. -/
structure StoredConfig where
  bot_token : String
  app_token : String
  signing_secret : String
  agent_url : String
  channel_id : Option String
deriving DecidableEq

/-- The serialized mapping of bot id to config record. -/
abbrev ConfigDict := List (String × StoredConfig)

/-- State of `BotStorage`: `configs` is the in-memory `self.configs`,
`file` models the contents of the storage file (`none` = file absent). -/
structure BotStorage where
  configs : ConfigDict
  file : Option ConfigDict
deriving DecidableEq

/-- `BotStorage.__init__` / `_load`: read the storage file into memory.  A
missing file, or a read/parse failure (`loadOk = false`, the `except` branch of
`_load`), yields the empty mapping. -/
def BotStorage.init (file : Option ConfigDict) (loadOk : Bool) : BotStorage :=
  { configs :=
      match file with
      | none => []
      | some d => if loadOk then d else []
    file := file }

/-- `BotStorage._save`: rewrite the whole file from `self.configs`.  A write
failure (`writeOk = false`) is caught inside `_save` and printed; it is never
raised to the caller, and the file keeps its previous contents. -/
def BotStorage.saveFile (s : BotStorage) (writeOk : Bool) : BotStorage :=
  if writeOk then { s with file := some s.configs } else s

/-- `BotStorage.save_bot`: upsert the record into `self.configs`, then `_save`.
Never raises. -/
def BotStorage.save_bot (s : BotStorage) (id : String) (cfg : StoredConfig)
    (writeOk : Bool) : BotStorage :=
  BotStorage.saveFile { s with configs := dictInsert id cfg s.configs } writeOk

/-- `BotStorage.delete_bot`: remove the record and `_save`; silent no-op on an
absent id. -/
def BotStorage.delete_bot (s : BotStorage) (id : String) (writeOk : Bool) : BotStorage :=
  if dictContains id s.configs then
    BotStorage.saveFile { s with configs := dictErase id s.configs } writeOk
  else s

/-- `BotStorage.get_bot`. -/
def BotStorage.get_bot (s : BotStorage) (id : String) : Option StoredConfig :=
  dictLookup id s.configs

/-- One bot instance (`BotInstance.__init__` plus its runtime flags).
`workers` counts the worker threads spawned by `start`; `hasHandler` models
`self.handler is not None`. -/
structure BotInstance where
  bot_id : String
  bot_token : String
  app_token : String
  signing_secret : String
  agent_url : String
  channel_id : Option String
  running : Bool
  bot_user_id : Option String
  workers : Nat
  hasHandler : Bool
deriving DecidableEq

/-- `BotInstance.__init__`: not running, no handler, no cached user id. -/
def BotInstance.init (bot_id bot_token app_token signing_secret agent_url : String)
    (channel_id : Option String) : BotInstance :=
  { bot_id, bot_token, app_token, signing_secret, agent_url, channel_id,
    running := false, bot_user_id := none, workers := 0, hasHandler := false }

/-- `BotInstance.start`.  If already running: warning logged, nothing changes,
no new worker.  Otherwise the app is built and one worker thread is spawned,
which creates the handler and sets `running = True` (sequential model of the
thread's initialisation).  `ok = false` models an exception during startup:
the `except` branch sets `running = False` and re-raises. -/
def BotInstance.start (b : BotInstance) (ok : Bool) : BotInstance × Except Unit Unit :=
  if b.running then (b, Except.ok ())
  else if ok then
    ({ b with running := true, hasHandler := true, workers := b.workers + 1 }, Except.ok ())
  else ({ b with running := false }, Except.error ())

/-- `BotInstance.stop`.  No-op when not running.  Otherwise `handler.close()`
is attempted when a handler exists (`closeOk = false` models it raising); an
exception is caught and logged, but since `self.running = False` comes after
the `close()` call inside the same `try`, the flag then stays `true`.
`stop` itself never raises. -/
def BotInstance.stop (b : BotInstance) (closeOk : Bool) : BotInstance :=
  if !b.running then b
  else if b.hasHandler then
    if closeOk then { b with running := false } else b
  else { b with running := false }

/-- An inbound Slack event; each field is `none` when the key is absent.
`bot_origin` is the event's `bot_id` key (set on bot-authored messages). -/
structure SlackEvent where
  user : Option String
  text : Option String
  channel : Option String
  thread_ts : Option String
  ts : Option String
  subtype : Option String
  bot_origin : Option String
  channel_type : Option String
deriving DecidableEq

/-- The decoded JSON body of an agent endpoint response; a field is `none`
when the key is absent (values are modelled as strings). -/
structure AgentResponse where
  response : Option String
  message : Option String
  text : Option String
deriving DecidableEq

/-- `BotInstance._call_agent`, parametrised by the outcome of the HTTP layer:
`Except.error` models `requests.post` raising (timeout, connection error),
`raise_for_status` on a non-2xx response, or an unparsable body — all logged
and re-raised.  On a decoded body the reply is
`data.get("response") or data.get("message") or data.get("text", "")`. -/
def call_agent (http : Except Unit AgentResponse) : Except Unit String :=
  match http with
  | Except.error e => Except.error e
  | Except.ok d =>
      Except.ok
        (if pyTruthy d.response then d.response.getD ""
         else if pyTruthy d.message then d.message.getD ""
         else d.text.getD "")

/-- Fuel-driven removal of every (leftmost, non-overlapping) occurrence of
`pat` from the character list, as `re.sub(pat, "", s)` does for a literal
pattern.  The fuel starts at the list length, which bounds the recursion. -/
def removeAllGo (pat : List Char) : Nat → List Char → List Char
  | 0, s => s
  | _ + 1, [] => []
  | fuel + 1, c :: rest =>
    if pat.isPrefixOf (c :: rest) then removeAllGo pat fuel (List.drop (pat.length - 1) rest)
    else c :: removeAllGo pat fuel rest

/-- `re.sub(pat, "", s)` for a literal pattern `pat` (the mention token
contains no regex metacharacters). -/
def pySub (pat s : String) : String :=
  if pat.toList.isEmpty then s
  else String.mk (removeAllGo pat.toList s.toList.length s.toList)

/-- Python `str.strip()`: drop whitespace from both ends. -/
def pyStrip (s : String) : String :=
  String.mk (((s.toList.dropWhile Char.isWhitespace).reverse.dropWhile Char.isWhitespace).reverse)

/-- The JSON payload `_call_agent` posts to the agent endpoint. -/
structure AgentPayload where
  message : String
  user_id : Option String
  channel_id : Option String
  thread_id : Option String
  bot_id : String
deriving DecidableEq

/-- One `say(...)` call: reply text and thread anchor. -/
structure Reply where
  text : String
  thread_ts : Option String
deriving DecidableEq

/-- `self.bot_user_id` after the lazy initialisation step of
`_handle_message`: kept when already truthy, else set from
`client.auth_test()["user_id"]`. -/
def effective_user_id (b : BotInstance) (authUserId : String) : Option String :=
  if pyTruthy b.bot_user_id then b.bot_user_id else some authUserId

/-- `BotInstance._handle_message`, parametrised by the auth-test result and by
the HTTP outcome of the agent call.  Returns the updated instance, the list of
gateway calls made and the list of replies sent.  On agent failure the fixed
apology is sent; a truthy-empty agent reply is not sent (`if response:`). -/
def handle_message (b : BotInstance) (ev : SlackEvent) (is_mention : Bool)
    (authUserId : String) (http : Except Unit AgentResponse) :
    BotInstance × List AgentPayload × List Reply :=
  let text0 := ev.text.getD ""
  let thread := pyOr ev.thread_ts ev.ts
  let b1 := { b with bot_user_id := effective_user_id b authUserId }
  let text1 :=
    if is_mention && pyTruthy b1.bot_user_id then
      pyStrip (pySub ("<@" ++ b1.bot_user_id.getD "" ++ ">") text0)
    else text0
  if text1 == "" then (b1, [], [])
  else
    let payload : AgentPayload :=
      { message := text1, user_id := ev.user, channel_id := ev.channel,
        thread_id := thread, bot_id := b.bot_id }
    match call_agent http with
    | Except.ok r =>
        if r == "" then (b1, [payload], [])
        else (b1, [payload], [{ text := r, thread_ts := thread }])
    | Except.error _ =>
        (b1, [payload],
          [{ text := "Sorry, I encountered an error processing your request.",
             thread_ts := thread }])

/-- State of `BotFactory`: registry `self.bots`, the `persist` flag, and the
`BotStorage` (present only when `persist` is set). -/
structure BotFactory where
  bots : List (String × BotInstance)
  persist : Bool
  storage : Option BotStorage
deriving DecidableEq

/-- `BotFactory.__init__`: empty registry; when `persist` is set, construct
the `BotStorage` (which loads the persisted mapping).  No bot instance is
created or started from the loaded mapping. -/
def BotFactory.init (persist : Bool) (file : Option ConfigDict) (loadOk : Bool) : BotFactory :=
  { bots := [], persist := persist,
    storage := if persist then some (BotStorage.init file loadOk) else none }

/-- `BotFactory.create_bot`.  `gen` is the generated `bot_[uuid hex]` id used
when no truthy explicit id is supplied; `writeOk` feeds `BotStorage._save`.
A duplicate id raises `ValueError` before any mutation; otherwise the
instance is registered first and the config saved afterwards. -/
def BotFactory.create_bot (f : BotFactory)
    (bot_token app_token signing_secret agent_url : String)
    (channel_id : Option String) (bot_id : Option String) (gen : String)
    (writeOk : Bool) : BotFactory × Except Unit String :=
  let bid := if pyTruthy bot_id then bot_id.getD "" else gen
  if dictContains bid f.bots then (f, Except.error ())
  else
    let b := BotInstance.init bid bot_token app_token signing_secret agent_url channel_id
    let bots1 := dictInsert bid b f.bots
    let storage1 :=
      if f.persist then
        f.storage.map (fun s =>
          BotStorage.save_bot s bid
            { bot_token, app_token, signing_secret, agent_url, channel_id } writeOk)
      else f.storage
    ({ f with bots := bots1, storage := storage1 }, Except.ok bid)

/-- `BotFactory.start_bot`: `ValueError` on an unknown id, else delegate to
the instance's `start`. -/
def BotFactory.start_bot (f : BotFactory) (id : String) (ok : Bool) :
    BotFactory × Except Unit Unit :=
  match dictLookup id f.bots with
  | none => (f, Except.error ())
  | some b =>
      let p := BotInstance.start b ok
      ({ f with bots := dictInsert id p.1 f.bots }, p.2)

/-- `BotFactory.stop_bot`: `ValueError` on an unknown id, else delegate to the
instance's `stop` (which never raises). -/
def BotFactory.stop_bot (f : BotFactory) (id : String) (closeOk : Bool) :
    BotFactory × Except Unit Unit :=
  match dictLookup id f.bots with
  | none => (f, Except.error ())
  | some b => ({ f with bots := dictInsert id (BotInstance.stop b closeOk) f.bots }, Except.ok ())

/-- `BotFactory.delete_bot`: when the id is registered, stop it, drop it from
the registry and from storage (when persisting); a silent no-op otherwise. -/
def BotFactory.delete_bot (f : BotFactory) (id : String) (closeOk writeOk : Bool) :
    BotFactory × Except Unit Unit :=
  if dictContains id f.bots then
    let f1 := (BotFactory.stop_bot f id closeOk).1
    let storage1 :=
      if f1.persist then f1.storage.map (fun s => BotStorage.delete_bot s id writeOk)
      else f1.storage
    ({ f1 with bots := dictErase id f1.bots, storage := storage1 }, Except.ok ())
  else (f, Except.ok ())

/-- The per-bot record exposed by `BotFactory.list_bots`. -/
structure BotStatus where
  agent_url : String
  channel_id : Option String
  running : Bool
deriving DecidableEq

/-- `BotFactory.list_bots`: id mapped to agent url, channel id and running
flag. -/
def BotFactory.list_bots (f : BotFactory) : List (String × BotStatus) :=
  f.bots.map (fun p =>
    (p.1, { agent_url := p.2.agent_url, channel_id := p.2.channel_id,
            running := p.2.running }))

/-- Heap model of Python dict objects, used to state aliasing facts about
`BotStorage.get_all`, whose body is `return self.configs.copy()`.  A dict
reference is an index into a heap of dict objects; `file` is the storage file
contents. -/
structure PyState where
  heap : List ConfigDict
  file : Option ConfigDict
deriving DecidableEq

/-- Dereference a dict. -/
def PyState.read (st : PyState) (r : Nat) : ConfigDict :=
  (st.heap[r]?).getD []

/-- Replace the dict object behind a reference (in-place mutation). -/
def PyState.write (st : PyState) (r : Nat) (d : ConfigDict) : PyState :=
  { st with heap := st.heap.set r d }

/-- Allocate a fresh dict object. -/
def PyState.alloc (st : PyState) (d : ConfigDict) : PyState × Nat :=
  ({ st with heap := st.heap ++ [d] }, st.heap.length)

/-- `BotStorage` with its `self.configs` dict held by reference into the heap. -/
structure HBotStorage where
  configsRef : Nat
deriving DecidableEq

/-- `BotStorage.get_all`: `self.configs.copy()` — allocate a fresh dict object
holding the same entries and return a reference to the copy. -/
def HBotStorage.get_all (st : PyState) (s : HBotStorage) : PyState × Nat :=
  st.alloc (st.read s.configsRef)

/-- A caller-side in-place mutation of a dict object: add/replace or remove an
entry. -/
inductive DictMut where
  | setKey (k : String) (v : StoredConfig)
  | delKey (k : String)
deriving DecidableEq

/-- Run one mutation against the dict behind `r`. -/
def applyMut (st : PyState) (r : Nat) (m : DictMut) : PyState :=
  match m with
  | DictMut.setKey k v => st.write r (dictInsert k v (st.read r))
  | DictMut.delKey k => st.write r (dictErase k (st.read r))

/-- Run a sequence of mutations against the dict behind `r`. -/
def applyMuts (st : PyState) (r : Nat) : List DictMut → PyState
  | [] => st
  | m :: ms => applyMuts (applyMut st r m) r ms

deriving instance DecidableEq for Except

/-- The first truthy value of an ordered list of optional strings (the spec's
"first present of an ordered set of accepted response keys", under Python
truthiness). -/
def firstTruthy : List (Option String) → Option String
  | [] => none
  | o :: rest => if pyTruthy o then o else firstTruthy rest

/-- C2 counterexample: a running connection whose `handler.close()` raises is
still marked running after `stop` — the claim that stop always clears the
running flag is false on the code. -/
theorem stop_close_failure_cex :
    (BotInstance.stop
      { bot_id := "b1", bot_token := "t", app_token := "a", signing_secret := "s",
        agent_url := "u", channel_id := none, running := true, bot_user_id := none,
        workers := 1, hasHandler := true } false).running = true := rfl

/-- C2 amended: `stop` never raises (it is total), and after `stop` the
connection is marked running exactly when it was running with a handler whose
`close()` raised; in every other case the flag is cleared.  So a close failure
is swallowed but leaves the connection stuck in the running state. -/
theorem stop_running_flag (b : BotInstance) (closeOk : Bool) :
    (BotInstance.stop b closeOk).running = (b.running && b.hasHandler && !closeOk) := by
  cases hr : b.running <;> cases hh : b.hasHandler <;> cases closeOk <;>
    simp [BotInstance.stop, hr, hh]

/-- C3 counterexample: `stop_bot` on an id absent from the registry raises
`ValueError` instead of being a silent no-op. -/
theorem stop_unknown_id_raises_cex :
    (BotFactory.stop_bot { bots := [], persist := false, storage := none } "b1" true).2 =
      Except.error () := rfl

/-- C3 amended: on an id absent from the registry, `start_bot` and `stop_bot`
both fail with `NotFound` (`ValueError`) and leave the factory unchanged,
while `delete_bot` is a silent no-op that leaves the registry and storage
unchanged. -/
theorem unknown_id_behaviour (f : BotFactory) (id : String)
    (ok closeOk delCloseOk writeOk : Bool) (h : dictLookup id f.bots = none) :
    BotFactory.start_bot f id ok = (f, Except.error ()) ∧
    BotFactory.stop_bot f id closeOk = (f, Except.error ()) ∧
    BotFactory.delete_bot f id delCloseOk writeOk = (f, Except.ok ()) := by
  refine ⟨?_, ?_, ?_⟩ <;>
    simp [BotFactory.start_bot, BotFactory.stop_bot, BotFactory.delete_bot,
      dictContains, h]

/-- C3 witness: the amended behaviour at the empty registry. -/
theorem unknown_id_behaviour_witness :
    BotFactory.start_bot { bots := [], persist := false, storage := none } "b1" true =
      ({ bots := [], persist := false, storage := none }, Except.error ()) ∧
    BotFactory.stop_bot { bots := [], persist := false, storage := none } "b1" true =
      ({ bots := [], persist := false, storage := none }, Except.error ()) ∧
    BotFactory.delete_bot { bots := [], persist := false, storage := none } "b1" true true =
      ({ bots := [], persist := false, storage := none }, Except.ok ()) :=
  unknown_id_behaviour { bots := [], persist := false, storage := none } "b1"
    true true true true rfl

/-- Upserting a key makes lookup return the new value. -/
theorem dictLookup_insert_self {α : Type} (k : String) (v : α)
    (d : List (String × α)) : dictLookup k (dictInsert k v d) = some v := by
  induction d with
  | nil => simp [dictInsert, dictLookup]
  | cons p rest ih =>
      obtain ⟨k', v'⟩ := p
      by_cases h : k' = k
      · simp [dictInsert, dictLookup, h]
      · simp [dictInsert, dictLookup, h, ih]

/-- Upserting the same key/value twice equals upserting it once. -/
theorem dictInsert_idem {α : Type} (k : String) (v : α)
    (d : List (String × α)) : dictInsert k v (dictInsert k v d) = dictInsert k v d := by
  induction d with
  | nil => simp [dictInsert]
  | cons p rest ih =>
      obtain ⟨k', v'⟩ := p
      by_cases h : k' = k
      · simp [dictInsert, h]
      · simp [dictInsert, h, ih]

/-- A `start` that raised no exception left the instance running. -/
theorem start_ok_running (b : BotInstance) (ok : Bool)
    (h : (BotInstance.start b ok).2 = Except.ok ()) :
    (BotInstance.start b ok).1.running = true := by
  by_cases hr : b.running
  · simp [BotInstance.start, hr]
  · cases ok with
    | false => simp [BotInstance.start, hr] at h
    | true => simp [BotInstance.start, hr]

/-- `start` on an already-running instance is a warning-only no-op. -/
theorem start_of_running (b : BotInstance) (ok : Bool) (h : b.running = true) :
    BotInstance.start b ok = (b, Except.ok ()) := by
  simp [BotInstance.start, h]

/-- C4: if `start_bot id` succeeded, a second `start_bot id` without an
intervening stop leaves the whole factory state — registry, running flags,
worker counts — exactly as after the first call, and raises nothing: the
re-entrant start on a running connection is a no-op. -/
theorem start_twice_idempotent (f : BotFactory) (id : String) (ok1 ok2 : Bool)
    (f1 : BotFactory) (h : BotFactory.start_bot f id ok1 = (f1, Except.ok ())) :
    BotFactory.start_bot f1 id ok2 = (f1, Except.ok ()) := by
  unfold BotFactory.start_bot at h
  cases hl : dictLookup id f.bots with
  | none =>
      rw [hl] at h
      simp at h
  | some b =>
      rw [hl] at h
      rw [Prod.mk.injEq] at h
      obtain ⟨h1, h2⟩ := h
      have hrun : (BotInstance.start b ok1).1.running = true := start_ok_running b ok1 h2
      have hl1 : dictLookup id f1.bots = some (BotInstance.start b ok1).1 := by
        rw [← h1]
        exact dictLookup_insert_self id (BotInstance.start b ok1).1 f.bots
      have hbots : dictInsert id (BotInstance.start b ok1).1 f1.bots = f1.bots := by
        rw [← h1]
        exact dictInsert_idem id (BotInstance.start b ok1).1 f.bots
      unfold BotFactory.start_bot
      rw [hl1]
      simp [start_of_running (BotInstance.start b ok1).1 ok2 hrun, hbots]

/-- C4 witness: a one-bot registry, started once and then started again. -/
theorem start_twice_idempotent_witness :
    BotFactory.start_bot
      { bots := [("b1", BotInstance.mk "b1" "t" "a" "s" "u" none true none 1 true)],
        persist := false, storage := none } "b1" true =
      ({ bots := [("b1", BotInstance.mk "b1" "t" "a" "s" "u" none true none 1 true)],
         persist := false, storage := none }, Except.ok ()) :=
  start_twice_idempotent
    { bots := [("b1", BotInstance.init "b1" "t" "a" "s" "u" none)],
      persist := false, storage := none } "b1" true true
    { bots := [("b1", BotInstance.mk "b1" "t" "a" "s" "u" none true none 1 true)],
      persist := false, storage := none } (by decide)

/-- C6: `create_bot` with a (truthy) explicit id that is already registered
raises `ValueError` before any mutation: the returned factory is the input
factory, so no registry entry is added, replaced or removed and nothing is
written to storage. -/
theorem create_duplicate_id_fails (f : BotFactory)
    (tok app sec url : String) (ch : Option String) (bid gen : String)
    (writeOk : Bool) (hb : bid ≠ "") (hmem : dictContains bid f.bots = true) :
    BotFactory.create_bot f tok app sec url ch (some bid) gen writeOk =
      (f, Except.error ()) := by
  simp [BotFactory.create_bot, pyTruthy, hb, hmem]

/-- C6 witness: duplicate create against a registry holding `b1`. -/
theorem create_duplicate_id_fails_witness :
    BotFactory.create_bot
      { bots := [("b1", BotInstance.init "b1" "t" "a" "s" "u" none)],
        persist := false, storage := none } "t2" "a2" "s2" "u2" none (some "b1") "g" true =
      ({ bots := [("b1", BotInstance.init "b1" "t" "a" "s" "u" none)],
         persist := false, storage := none }, Except.error ()) :=
  create_duplicate_id_fails
    { bots := [("b1", BotInstance.init "b1" "t" "a" "s" "u" none)],
      persist := false, storage := none }
    "t2" "a2" "s2" "u2" none "b1" "g" true (by decide) (by decide)

/-- C9: constructing the factory with persistence loads the persisted mapping
into the store, but registers no bot: `list_bots` is empty immediately after
construction even when the storage file holds records, and no persisted bot is
reconstructed or started. -/
theorem init_loads_store_registers_nothing (d : ConfigDict) :
    BotFactory.list_bots (BotFactory.init true (some d) true) = [] ∧
    (BotFactory.init true (some d) true).storage =
      some { configs := d, file := some d } := by
  constructor <;> rfl

/-- C1 counterexample: with persistence enabled and the file write failing,
`create_bot` still returns the new id successfully (no error reaches the
caller, since `_save` swallows the exception) and the in-memory registry does
contain the new id — contradicting both halves of the claim. -/
theorem create_write_failure_cex :
    (BotFactory.create_bot (BotFactory.init true (some []) true)
        "t" "a" "s" "u" none (some "b1") "g" false).2 = Except.ok "b1" ∧
    dictContains "b1"
      (BotFactory.create_bot (BotFactory.init true (some []) true)
        "t" "a" "s" "u" none (some "b1") "g" false).1.bots = true := by
  decide

/-- Upserting a key makes the dict contain it. -/
theorem dictContains_insert_self {α : Type} (k : String) (v : α)
    (d : List (String × α)) : dictContains k (dictInsert k v d) = true := by
  induction d with
  | nil => simp [dictInsert, dictContains, dictLookup]
  | cons p rest ih =>
      obtain ⟨k', v'⟩ := p
      by_cases h : k' = k
      · simp [dictInsert, dictContains, dictLookup, h]
      · simpa [dictInsert, dictContains, dictLookup, h] using ih

/-- C1 amended: when persistence is enabled and the durable write fails during
create, the failure is caught and printed inside the store and is NOT
reported to the caller: the create returns the new id, the registry and the
store's in-memory mapping both contain it, while the durable file keeps its
old contents — so in-memory and durable state diverge. -/
theorem create_write_failure_swallowed (f : BotFactory) (s : BotStorage)
    (tok app sec url : String) (ch : Option String) (bid gen : String)
    (hp : f.persist = true) (hs : f.storage = some s) (hb : bid ≠ "")
    (hfresh : dictContains bid f.bots = false) :
    (BotFactory.create_bot f tok app sec url ch (some bid) gen false).2 =
      Except.ok bid ∧
    dictContains bid
      (BotFactory.create_bot f tok app sec url ch (some bid) gen false).1.bots = true ∧
    (BotFactory.create_bot f tok app sec url ch (some bid) gen false).1.storage =
      some (BotStorage.mk
        (dictInsert bid (StoredConfig.mk tok app sec url ch) s.configs) s.file) := by
  refine ⟨?_, ?_, ?_⟩ <;>
    simp [BotFactory.create_bot, BotStorage.save_bot, BotStorage.saveFile,
      pyTruthy, hb, hp, hs, hfresh, dictContains_insert_self]

/-- C1 witness: the amended behaviour at a concrete persisted factory. -/
theorem create_write_failure_swallowed_witness :
    (BotFactory.create_bot (BotFactory.init true (some []) true)
        "t" "a" "s" "u" none (some "b1") "g" false).2 = Except.ok "b1" ∧
    dictContains "b1"
      (BotFactory.create_bot (BotFactory.init true (some []) true)
        "t" "a" "s" "u" none (some "b1") "g" false).1.bots = true ∧
    (BotFactory.create_bot (BotFactory.init true (some []) true)
        "t" "a" "s" "u" none (some "b1") "g" false).1.storage =
      some (BotStorage.mk
        (dictInsert "b1" (StoredConfig.mk "t" "a" "s" "u" none) []) (some [])) :=
  create_write_failure_swallowed (BotFactory.init true (some []) true)
    (BotStorage.mk [] (some [])) "t" "a" "s" "u" none "b1" "g"
    rfl rfl (by decide) rfl

/-- C5 counterexample: a decoded body containing none of the accepted keys
does not fail with `GatewayError`; the call returns the empty string. -/
theorem agent_reply_missing_keys_cex :
    call_agent (Except.ok { response := none, message := none, text := none }) =
      Except.ok "" ∧
    call_agent (Except.ok { response := none, message := none, text := none }) ≠
      Except.error () := by
  decide

/-- An untruthy optional string defaults to the empty string. -/
theorem pyTruthy_false_getD (o : Option String) (h : pyTruthy o = false) :
    o.getD "" = "" := by
  cases o with
  | none => rfl
  | some s =>
      simp [pyTruthy] at h
      simp [h]

/-- C5 amended: on a decoded body the reply text is the first truthy
(non-empty) value of the ordered keys `response`, `message`, `text`, and the
empty string when none is truthy — missing keys never raise; `GatewayError`
arises exactly when the HTTP layer fails (non-2xx, timeout, malformed body). -/
theorem agent_reply_extraction :
    (∀ d : AgentResponse,
      call_agent (Except.ok d) =
        Except.ok ((firstTruthy [d.response, d.message, d.text]).getD "")) ∧
    (∀ e : Unit, call_agent (Except.error e) = Except.error e) := by
  constructor
  · intro d
    by_cases hr : pyTruthy d.response
    · simp [call_agent, firstTruthy, hr]
    · by_cases hm : pyTruthy d.message
      · simp [call_agent, firstTruthy, hr, hm]
      · by_cases ht : pyTruthy d.text
        · simp [call_agent, firstTruthy, hr, hm, ht]
        · simp [call_agent, firstTruthy, hr, hm, ht,
            pyTruthy_false_getD d.text (by simpa using ht)]
  · intro e
    rfl

/-- C7: on a mention event whose text, after removing every occurrence of the
canonical mention token `<@bot_user_id>` and trimming whitespace, is empty,
the handler returns without calling the gateway and without replying. -/
theorem bare_mention_discarded (b : BotInstance) (ev : SlackEvent) (auth : String)
    (http : Except Unit AgentResponse)
    (hu : pyTruthy (effective_user_id b auth) = true)
    (he : pyStrip (pySub ("<@" ++ (effective_user_id b auth).getD "" ++ ">")
        (ev.text.getD "")) = "") :
    (handle_message b ev true auth http).2 = ([], []) := by
  simp [handle_message, hu, he]

/-- C7 witness: a bare mention `"<@U1>  "` of a bot whose cached user id is
resolved to `U1` produces no gateway call and no reply. -/
theorem bare_mention_discarded_witness :
    (handle_message (BotInstance.init "b1" "t" "a" "s" "u" none)
        { user := some "alice", text := some "<@U1>  ", channel := some "C1",
          thread_ts := none, ts := some "1.0", subtype := none,
          bot_origin := none, channel_type := some "channel" }
        true "U1" (Except.error ())).2 = ([], []) :=
  bare_mention_discarded (BotInstance.init "b1" "t" "a" "s" "u" none)
    { user := some "alice", text := some "<@U1>  ", channel := some "C1",
      thread_ts := none, ts := some "1.0", subtype := none,
      bot_origin := none, channel_type := some "channel" }
    "U1" (Except.error ()) (by decide) (by decide)

/-- Two bot instances that agree on everything except the three secret fields
(`bot_token`, `app_token`, `signing_secret`). -/
def secret_equiv (b c : BotInstance) : Prop :=
  b.bot_id = c.bot_id ∧ b.agent_url = c.agent_url ∧ b.channel_id = c.channel_id ∧
  b.running = c.running ∧ b.bot_user_id = c.bot_user_id ∧ b.workers = c.workers ∧
  b.hasHandler = c.hasHandler

/-- The status view of a registry is unchanged by replacing secrets, entry by
entry. -/
theorem map_status_congr (l1 l2 : List (String × BotInstance))
    (h : List.Forall₂ (fun p q => p.1 = q.1 ∧ secret_equiv p.2 q.2) l1 l2) :
    l1.map (fun p => (p.1,
        (BotStatus.mk p.2.agent_url p.2.channel_id p.2.running))) =
    l2.map (fun p => (p.1,
        (BotStatus.mk p.2.agent_url p.2.channel_id p.2.running))) := by
  induction h with
  | nil => rfl
  | cons hpq hrest ih =>
      obtain ⟨hid, hbid, ha, hc, hr, -, -, -⟩ := hpq
      simp [hid, ha, hc, hr, ih]

/-- C8: `list_bots` never depends on the secret fields.  For any two registry
states whose entries agree pairwise on id and on every non-secret field,
`list_bots` returns identical output; and by its type the per-id status holds
exactly the agent url, the channel filter and the running flag. -/
theorem list_bots_no_secrets (f g : BotFactory)
    (h : List.Forall₂ (fun p q => p.1 = q.1 ∧ secret_equiv p.2 q.2) f.bots g.bots) :
    BotFactory.list_bots f = BotFactory.list_bots g := by
  unfold BotFactory.list_bots
  exact map_status_congr f.bots g.bots h

/-- C8 witness: two one-bot registries differing only in their three secret
fields produce the same `list_bots` output. -/
theorem list_bots_no_secrets_witness :
    BotFactory.list_bots
      { bots := [("b1", BotInstance.mk "b1" "tok1" "app1" "sec1" "u" none true none 1 true)],
        persist := false, storage := none } =
    BotFactory.list_bots
      { bots := [("b1", BotInstance.mk "b1" "tok2" "app2" "sec2" "u" none true none 1 true)],
        persist := false, storage := none } :=
  list_bots_no_secrets
    { bots := [("b1", BotInstance.mk "b1" "tok1" "app1" "sec1" "u" none true none 1 true)],
      persist := false, storage := none }
    { bots := [("b1", BotInstance.mk "b1" "tok2" "app2" "sec2" "u" none true none 1 true)],
      persist := false, storage := none }
    (List.Forall₂.cons ⟨rfl, rfl, rfl, rfl, rfl, rfl, rfl, rfl⟩ List.Forall₂.nil)

/-- Mutating the dict behind `r` touches neither a different reference nor the
storage file. -/
theorem applyMuts_frame (muts : List DictMut) (st : PyState) (r i : Nat)
    (h : i ≠ r) :
    (applyMuts st r muts).read i = st.read i ∧
    (applyMuts st r muts).file = st.file := by
  induction muts generalizing st with
  | nil => exact ⟨rfl, rfl⟩
  | cons m ms ih =>
      have h1 : (applyMut st r m).read i = st.read i := by
        cases m <;>
          simp [applyMut, PyState.write, PyState.read,
            List.getElem?_set_ne (fun hri => h hri.symm)]
      have h2 : (applyMut st r m).file = st.file := by
        cases m <;> rfl
      have := ih (applyMut st r m)
      exact ⟨by rw [applyMuts, this.1, h1], by rw [applyMuts, this.2, h2]⟩

/-- C10: `get_all` hands out a copy.  For any store state and any sequence of
in-place mutations (adding, removing or replacing entries) applied to the dict
returned by `get_all`, the store's own `configs` dict and the persisted file
read back unchanged. -/
theorem get_all_returns_copy (st : PyState) (s : HBotStorage) (muts : List DictMut)
    (h : s.configsRef < st.heap.length) :
    (applyMuts (HBotStorage.get_all st s).1 (HBotStorage.get_all st s).2
        muts).read s.configsRef = st.read s.configsRef ∧
    (applyMuts (HBotStorage.get_all st s).1 (HBotStorage.get_all st s).2
        muts).file = st.file := by
  have hne : s.configsRef ≠ st.heap.length := Nat.ne_of_lt h
  have key := applyMuts_frame muts (HBotStorage.get_all st s).1
    (HBotStorage.get_all st s).2 s.configsRef hne
  refine ⟨?_, key.2⟩
  rw [key.1]
  simp [HBotStorage.get_all, PyState.alloc, PyState.read,
    List.getElem?_append_left h]

/-- C10 witness: a one-dict heap; setting and deleting keys on the copy leaves
the original dict and the file unchanged. -/
theorem get_all_returns_copy_witness :
    (applyMuts
        (HBotStorage.get_all
          (PyState.mk [[("b1", StoredConfig.mk "t" "a" "s" "u" none)]]
            (some [("b1", StoredConfig.mk "t" "a" "s" "u" none)]))
          (HBotStorage.mk 0)).1
        (HBotStorage.get_all
          (PyState.mk [[("b1", StoredConfig.mk "t" "a" "s" "u" none)]]
            (some [("b1", StoredConfig.mk "t" "a" "s" "u" none)]))
          (HBotStorage.mk 0)).2
        [DictMut.setKey "b2" (StoredConfig.mk "t2" "a2" "s2" "u2" none),
         DictMut.delKey "b1"]).read 0 =
      (PyState.mk [[("b1", StoredConfig.mk "t" "a" "s" "u" none)]]
        (some [("b1", StoredConfig.mk "t" "a" "s" "u" none)])).read 0 ∧
    (applyMuts
        (HBotStorage.get_all
          (PyState.mk [[("b1", StoredConfig.mk "t" "a" "s" "u" none)]]
            (some [("b1", StoredConfig.mk "t" "a" "s" "u" none)]))
          (HBotStorage.mk 0)).1
        (HBotStorage.get_all
          (PyState.mk [[("b1", StoredConfig.mk "t" "a" "s" "u" none)]]
            (some [("b1", StoredConfig.mk "t" "a" "s" "u" none)]))
          (HBotStorage.mk 0)).2
        [DictMut.setKey "b2" (StoredConfig.mk "t2" "a2" "s2" "u2" none),
         DictMut.delKey "b1"]).file =
      (PyState.mk [[("b1", StoredConfig.mk "t" "a" "s" "u" none)]]
        (some [("b1", StoredConfig.mk "t" "a" "s" "u" none)])).file :=
  get_all_returns_copy
    (PyState.mk [[("b1", StoredConfig.mk "t" "a" "s" "u" none)]]
      (some [("b1", StoredConfig.mk "t" "a" "s" "u" none)]))
    (HBotStorage.mk 0)
    [DictMut.setKey "b2" (StoredConfig.mk "t2" "a2" "s2" "u2" none),
     DictMut.delKey "b1"]
    (by decide)
